import Mathlib

/-!
Shallow embedding of the gaze / head-pose classification core of the
proctoring service (files `app/gaze.py` and `app/utils.py`).

External collaborators (OpenCV decode/flip, the MediaPipe FaceMesh
detector, `cv2.solvePnP`, `cv2.Rodrigues`, `cv2.RQDecomp3x3`,
`cv2.putText`) are modelled as oracle functions gathered in an
`Oracles` record; fallible external calls return `Except String _`,
matching the Python functions' `try/except Exception` wrappers which
catch any exception raised by those calls.  Machine floats are
modelled as rationals.  Python `int()` truncation and `round(x, 2)`
(round-half-to-even) are modelled explicitly.
-/

namespace Proctoring

/-- A landmark point with normalized coordinates, as produced by the
face-landmark detector (`lm.x`, `lm.y`, `lm.z`). -/
structure Point3 where
  x : ℚ
  y : ℚ
  z : ℚ
deriving DecidableEq

/-- One detected face: its ordered list of landmark points
(`face_landmarks.landmark`). -/
abbrev Face := List Point3

/-- An image frame, abstracted to the data the core reads: its shape
(`img_h, img_w, _ = image.shape`) plus an opaque content tag so that
distinct frames with equal shapes exist in the model. -/
structure Image where
  height : ℕ
  width : ℕ
  tag : ℕ
deriving DecidableEq

/-- utils.py: `LEFT_EYE = [33, 133]`. -/
def LEFT_EYE : List ℕ := [33, 133]

/-- utils.py: `RIGHT_EYE = [362, 263]`. -/
def RIGHT_EYE : List ℕ := [362, 263]

/-- utils.py: `NOSE = 1`. -/
def NOSE : ℕ := 1

/-- utils.py: `YAW_THRESHOLD = 20`. -/
def YAW_THRESHOLD : ℚ := 20

/-- utils.py: `PITCH_THRESHOLD = 15`. -/
def PITCH_THRESHOLD : ℚ := 15

/-- utils.py `is_looking_away`: reads `landmarks.landmark[LEFT_EYE[0]]`,
`landmarks.landmark[RIGHT_EYE[1]]`, `landmarks.landmark[NOSE]`, computes
`eye_mid_x = (left.x + right.x) / 2`, and returns
`abs(nose.x - eye_mid_x) > 0.016`.  A landmark list too short for one of
the three accesses raises `IndexError` in Python, modelled by the
`.error` branch (the caller `analyze_gaze` catches it). -/
def is_looking_away (landmarks : Face) : Except String Bool :=
  match landmarks.get? (LEFT_EYE.get! 0), landmarks.get? (RIGHT_EYE.get! 1),
        landmarks.get? NOSE with
  | some left, some right, some nose =>
    let eye_mid_x := (left.x + right.x) / 2
    .ok (decide (|nose.x - eye_mid_x| > 16 / 1000))
  | _, _, _ => .error "IndexError"

/-- Python `int()` applied to a rational: truncation toward zero. -/
def pyInt (q : ℚ) : ℤ :=
  if 0 ≤ q then ⌊q⌋ else ⌈q⌉

/-- Python's banker's rounding of a rational to the nearest integer:
exact halves go to the even neighbour, everything else to the nearest
integer. -/
def roundHalfEven (q : ℚ) : ℤ :=
  if q - ⌊q⌋ = 1 / 2 then (if 2 ∣ ⌊q⌋ then ⌊q⌋ else ⌊q⌋ + 1) else round q

/-- Python `round(x, 2)`: round to two decimal places, halves to even. -/
def pyRound2 (q : ℚ) : ℚ :=
  (roundHalfEven (q * 100) : ℚ) / 100

/-- gaze.py: the landmark-index membership list
`[33, 263, 1, 61, 291, 199]` used by both head-pose functions. -/
def poseIdx : List ℕ := [33, 263, 1, 61, 291, 199]

/-- gaze.py: the loop `for idx, lm in enumerate(face_landmarks.landmark):
if idx in [33, 263, 1, 61, 291, 199]: ...collect...`, as a recursion
carrying the enumeration counter. -/
def collectPose (n : ℕ) : Face → List (ℕ × Point3)
  | [] => []
  | lm :: rest =>
    if n ∈ poseIdx then (n, lm) :: collectPose (n + 1) rest
    else collectPose (n + 1) rest

/-- The selected `(idx, lm)` pairs for one face, in enumeration order. -/
def poseSelect (face : Face) : List (ℕ × Point3) :=
  collectPose 0 face

/-- gaze.py: `face_2d.append([x, y])` with `x = int(lm.x * img_w)`,
`y = int(lm.y * img_h)`. -/
def face_2d (face : Face) (w h : ℕ) : List (ℚ × ℚ) :=
  (poseSelect face).map (fun p =>
    ((pyInt (p.2.x * w) : ℚ), (pyInt (p.2.y * h) : ℚ)))

/-- gaze.py: `face_3d.append([x, y, lm.z])` with the same truncated
pixel coordinates and the raw normalized depth. -/
def face_3d (face : Face) (w h : ℕ) : List (ℚ × ℚ × ℚ) :=
  (poseSelect face).map (fun p =>
    ((pyInt (p.2.x * w) : ℚ), (pyInt (p.2.y * h) : ℚ), p.2.z))

/-- gaze.py: `focal_length = 1 * img_w` and
`cam_matrix = [[focal_length, 0, img_h/2], [0, focal_length, img_w/2],
[0, 0, 1]]`, rebuilt from the current frame's shape on every call. -/
def camMatrix (h w : ℕ) : Fin 3 → Fin 3 → ℚ :=
  let focal_length : ℚ := 1 * (w : ℚ)
  ![![focal_length, 0, (h : ℚ) / 2],
    ![0, focal_length, (w : ℚ) / 2],
    ![0, 0, 1]]

/-- gaze.py: `dist_matrix = np.zeros((4, 1))`. -/
def distMatrix : Fin 4 → Fin 1 → ℚ :=
  fun _ _ => 0

/-- A rotation vector (`rot_vec`) or translation vector. -/
abbrev Vec3 := ℚ × ℚ × ℚ

/-- A 3x3 matrix (`rmat`). -/
abbrev Mat3 := Fin 3 → Fin 3 → ℚ

/-- The external collaborators used by the three analysis functions.
`flip` is `cv2.flip(image, 1)`; `detect` is `cv2.cvtColor` followed by
the locked `face_mesh.process` call, returning the detected faces
(empty list when `results.multi_face_landmarks` is falsy); `solvePnP`,
`rodrigues` and `rqDecomp3x3` are the OpenCV geometry routines (the
solver receives the 3D points, 2D points, camera matrix and distortion
matrix in the source's argument order and returns the success flag,
rotation vector and translation vector); `putText` draws a label and
returns the annotated frame.  An `.error` value models the call
raising an exception. -/
structure Oracles where
  flip : Image → Except String Image
  detect : Image → Except String (List Face)
  solvePnP : List (ℚ × ℚ × ℚ) → List (ℚ × ℚ) → Mat3 → (Fin 4 → Fin 1 → ℚ) →
    Except String (Bool × Vec3 × Vec3)
  rodrigues : Vec3 → Except String Mat3
  rqDecomp3x3 : Mat3 → Except String (ℚ × ℚ × ℚ)
  putText : Image → String → Image

/-- Outcome of `base64.b64decode` plus `cv2.imdecode` on one request
body: the decode raised an exception, or it returned `None` / an empty
array (`img is None or img.size == 0`), or it produced an image. -/
inductive DecodeResult where
  | raise (msg : String)
  | failed
  | ok (img : Image)
deriving DecidableEq

/-- gaze.py lines 92-106: the threshold chain of
`analyze_gaze_with_head_pose`, returning `(direction, violation)`. -/
def classifyPose (y_angle x_angle : ℚ) : String × Bool :=
  if y_angle < -YAW_THRESHOLD then ("looking_left", true)
  else if y_angle > YAW_THRESHOLD then ("looking_right", true)
  else if x_angle < -PITCH_THRESHOLD then ("looking_down", true)
  else if x_angle > PITCH_THRESHOLD then ("looking_up", true)
  else ("focused", false)

/-- gaze.py lines 173-192: the threshold chain of `process_frame_cv2`,
returning `(direction, violation, text)`. -/
def classifyProc (y_angle x_angle : ℚ) : String × Bool × String :=
  if y_angle < -YAW_THRESHOLD then ("looking_left", true, "Looking Left!")
  else if y_angle > YAW_THRESHOLD then ("looking_right", true, "Looking Right!")
  else if x_angle < -PITCH_THRESHOLD then ("looking_down", true, "Looking Down!")
  else if x_angle > PITCH_THRESHOLD then ("looking_up", true, "Looking Up!")
  else ("focused", false, "Focused")

/-- Result dictionary of `analyze_gaze_with_head_pose`: `yaw`/`pitch`
are `none` when the key is absent from the returned dict, and `err`
models the optional `"error"` key. -/
structure PoseResult where
  violation : Bool
  direction : String
  yaw : Option ℚ
  pitch : Option ℚ
  err : Option String
deriving DecidableEq

/-- gaze.py line 119: the `except` branch of
`analyze_gaze_with_head_pose`. -/
def poseError (e : String) : PoseResult :=
  { violation := false, direction := "error", yaw := none, pitch := none,
    err := some e }

/-- gaze.py `analyze_gaze_with_head_pose`: decode, flip, detect, build
the 2D/3D correspondences and the per-frame camera matrix, run the
solve chain, classify with the fixed thresholds, and report the
rounded angles; every failure is caught and converted to a
non-violating result. -/
def analyze_gaze_with_head_pose (o : Oracles) (dec : DecodeResult) : PoseResult :=
  match dec with
  | .raise msg => poseError msg
  | .failed =>
    { violation := false, direction := "unknown", yaw := none, pitch := none,
      err := some "Failed to decode image" }
  | .ok image0 =>
    match o.flip image0 with
    | .error e => poseError e
    | .ok image =>
      match o.detect image with
      | .error e => poseError e
      | .ok faces =>
        let img_h := image.height
        let img_w := image.width
        match faces with
        | [] =>
          { violation := false, direction := "no_face", yaw := some 0,
            pitch := some 0, err := none }
        | face :: _ =>
          match o.solvePnP (face_3d face img_w img_h) (face_2d face img_w img_h)
              (camMatrix img_h img_w) distMatrix with
          | .error e => poseError e
          | .ok (_success, rot_vec, _trans_vec) =>
            match o.rodrigues rot_vec with
            | .error e => poseError e
            | .ok rmat =>
              match o.rqDecomp3x3 rmat with
              | .error e => poseError e
              | .ok (a0, a1, _a2) =>
                let x_angle := a0 * 360
                let y_angle := a1 * 360
                let dv := classifyPose y_angle x_angle
                { violation := dv.2, direction := dv.1,
                  yaw := some (pyRound2 y_angle),
                  pitch := some (pyRound2 x_angle), err := none }

/-- Result dictionary of `process_frame_cv2`, which always carries an
image alongside the classification fields. -/
structure ProcResult where
  violation : Bool
  direction : String
  image : Image
  yaw : Option ℚ
  pitch : Option ℚ
  err : Option String
deriving DecidableEq

/-- gaze.py lines 218-225: the `except` branch of `process_frame_cv2`,
returning the frame as it stood when the exception was raised. -/
def procError (img : Image) (e : String) : ProcResult :=
  { violation := false, direction := "error", image := img, yaw := none,
    pitch := none, err := some e }

/-- gaze.py `process_frame_cv2`: the same pipeline as
`analyze_gaze_with_head_pose` on an already-decoded frame, which
additionally annotates the frame with `cv2.putText` before returning. -/
def process_frame_cv2 (o : Oracles) (image0 : Image) : ProcResult :=
  match o.flip image0 with
  | .error e => procError image0 e
  | .ok image =>
    match o.detect image with
    | .error e => procError image e
    | .ok faces =>
      let img_h := image.height
      let img_w := image.width
      match faces with
      | [] =>
        { violation := false, direction := "no_face", image := image,
          yaw := some 0, pitch := some 0, err := none }
      | face :: _ =>
        match o.solvePnP (face_3d face img_w img_h) (face_2d face img_w img_h)
            (camMatrix img_h img_w) distMatrix with
        | .error e => procError image e
        | .ok (_success, rot_vec, _trans_vec) =>
          match o.rodrigues rot_vec with
          | .error e => procError image e
          | .ok rmat =>
            match o.rqDecomp3x3 rmat with
            | .error e => procError image e
            | .ok (a0, a1, _a2) =>
              let x_angle := a0 * 360
              let y_angle := a1 * 360
              let dvt := classifyProc y_angle x_angle
              let annotated :=
                o.putText image
                  (if dvt.2.1 then "WARNING: " ++ dvt.2.2 else dvt.2.2)
              { violation := dvt.2.1, direction := dvt.1, image := annotated,
                yaw := some (pyRound2 y_angle),
                pitch := some (pyRound2 x_angle), err := none }

/-- gaze.py `analyze_gaze`: decode (without flipping), detect, and run
the ratio heuristic on the first face; every failure path returns
`False`. -/
def analyze_gaze (o : Oracles) (dec : DecodeResult) : Bool :=
  match dec with
  | .raise _ => false
  | .failed => false
  | .ok image =>
    match o.detect image with
    | .error _ => false
    | .ok faces =>
      match faces with
      | [] => false
      | f :: _ =>
        match is_looking_away f with
        | .ok b => b
        | .error _ => false

/-- Construction parameters of the module-level FaceMesh instance
(gaze.py lines 10-16). -/
structure FaceMeshConfig where
  static_image_mode : Bool
  max_num_faces : ℕ
  refine_landmarks : Bool
  min_detection_confidence : ℚ
  min_tracking_confidence : ℚ
deriving DecidableEq

/-- gaze.py lines 10-16: the shared detector is created with
`static_image_mode=False`, i.e. in tracking mode, so it keeps state
across frames. -/
def face_mesh_config : FaceMeshConfig :=
  { static_image_mode := false, max_num_faces := 1, refine_landmarks := true,
    min_detection_confidence := 7 / 10, min_tracking_confidence := 7 / 10 }

/-- Detector state after one `analyze_gaze_with_head_pose` call on
`img` through the stateful step function `d`: the tracking state
advances when `process` is reached, i.e. after a successful flip. -/
def stateAfter {σ : Type} (d : σ → Image → σ × Except String (List Face))
    (s : σ) (o : Oracles) (img : Image) : σ :=
  match o.flip img with
  | .ok fimg => (d s fimg).1
  | .error _ => s

/-- Two consecutive `analyze_gaze_with_head_pose` calls on the same
static frame, with the shared FaceMesh modelled as a stateful step
function `d` (as configured by `face_mesh_config`, tracking state
persists between calls). -/
def twoCalls {σ : Type} (d : σ → Image → σ × Except String (List Face))
    (s : σ) (o : Oracles) (img : Image) : PoseResult × PoseResult :=
  let r1 := analyze_gaze_with_head_pose { o with detect := fun i => (d s i).2 } (.ok img)
  let r2 := analyze_gaze_with_head_pose
    { o with detect := fun i => (d (stateAfter d s o img) i).2 } (.ok img)
  (r1, r2)

/-- The ratio heuristic's verdict is a function of the landmarks at the
index set `S` alone. -/
def ratioDependsOnlyOn (S : List ℕ) : Prop :=
  ∀ l l' : Face, (∀ i ∈ S, l.get? i = l'.get? i) →
    is_looking_away l = is_looking_away l'

/-- Landmark index `i` influences the ratio heuristic: some two faces
differing only at `i` get different verdicts. -/
def ratioInfluencedBy (i : ℕ) : Prop :=
  ∃ l l' : Face, (∀ j, j ≠ i → l.get? j = l'.get? j) ∧
    is_looking_away l ≠ is_looking_away l'

/-- The ratio heuristic reads exactly the index set `S`: its verdict
depends on no index outside `S`, and every index in `S` influences
it. -/
def ratioReadsExactly (S : List ℕ) : Prop :=
  ratioDependsOnlyOn S ∧ ∀ i ∈ S, ratioInfluencedBy i

/-- The pose path's solver inputs are a function of the landmarks at
the index set `S` alone. -/
def poseDependsOnlyOn (S : List ℕ) : Prop :=
  ∀ (w h : ℕ) (l l' : Face), (∀ i ∈ S, l.get? i = l'.get? i) →
    face_2d l w h = face_2d l' w h ∧ face_3d l w h = face_3d l' w h

/-- Landmark index `i` influences the pose path's solver inputs. -/
def poseInfluencedBy (i : ℕ) : Prop :=
  ∃ (w h : ℕ) (l l' : Face), (∀ j, j ≠ i → l.get? j = l'.get? j) ∧
    face_3d l w h ≠ face_3d l' w h

/-- The pose path reads exactly the index set `S`. -/
def poseReadsExactly (S : List ℕ) : Prop :=
  poseDependsOnlyOn S ∧ ∀ i ∈ S, poseInfluencedBy i

/-- A landmark at the origin. -/
def ptZ : Point3 := ⟨0, 0, 0⟩

/-- A 264-landmark face sitting entirely at the origin: long enough for
every index the ratio heuristic reads. -/
def faceW : Face := List.replicate 264 ptZ

/-- A 292-landmark face at the origin: long enough for every index the
pose path reads. -/
def faceP : Face := List.replicate 292 ptZ

/-- A face whose nose tip (index 1) is displaced to `x = 1`, which the
ratio heuristic flags. -/
def faceV : Face := (List.replicate 264 ptZ).set 1 ⟨1, 0, 0⟩

/-- A face whose left-eye outer corner (index 33) is displaced to
`x = 1`. -/
def face33 : Face := (List.replicate 264 ptZ).set 33 ⟨1, 0, 0⟩

/-- A face whose right-eye outer corner (index 263) is displaced to
`x = 1`. -/
def face263 : Face := (List.replicate 264 ptZ).set 263 ⟨1, 0, 0⟩

/-- A landmark displaced in depth only. -/
def ptD : Point3 := ⟨0, 0, 1⟩

/-- A concrete 480x640 frame. -/
def imgW : Image := ⟨480, 640, 0⟩

/-- The all-zero 3x3 matrix. -/
def zeroMat : Mat3 := fun _ _ => 0

/-- Benign concrete oracles: flipping is the identity, detection always
returns the single face `faceW`, and the geometry chain succeeds with
RQ angles `(0, 1, 0)` (so `y_angle = 360`). -/
def oW : Oracles :=
  { flip := fun i => .ok i
    detect := fun _ => .ok [faceW]
    solvePnP := fun _ _ _ _ => .ok (true, (0, 0, 0), (0, 0, 0))
    rodrigues := fun _ => .ok zeroMat
    rqDecomp3x3 := fun _ => .ok (0, 1, 0)
    putText := fun i _ => i }

/-- Concrete oracles whose detection reports the displaced-nose face
`faceV` and whose RQ angles are all zero. -/
def oV : Oracles :=
  { flip := fun i => .ok i
    detect := fun _ => .ok [faceV]
    solvePnP := fun _ _ _ _ => .ok (true, (0, 0, 0), (0, 0, 0))
    rodrigues := fun _ => .ok zeroMat
    rqDecomp3x3 := fun _ => .ok (0, 1, 0)
    putText := fun i _ => i }

/-- Concrete oracles that report no face at all. -/
def oN : Oracles :=
  { oW with detect := fun _ => .ok [] }

/-- Oracles agreeing with `oW` only on solver queries whose camera
matrix has the current frame's focal length (640) in its top-left
entry; elsewhere the solver answers differently. -/
def oAlt : Oracles :=
  { oW with
    solvePnP := fun _f3 _f2 m _d =>
      if m 0 0 = (640 : ℚ) then .ok (true, (0, 0, 0), (0, 0, 0))
      else .ok (false, (9, 9, 9), (9, 9, 9)) }

/-- A concrete stateful detector step: it finds `faceW` on the first
call and nothing afterwards (its state counts calls). -/
def d0 : ℕ → Image → ℕ × Except String (List Face) :=
  fun n _ => (n + 1, if n = 0 then .ok [faceW] else .ok [])

/-- A concrete stateless detector step. -/
def dS : Unit → Image → Unit × Except String (List Face) :=
  fun _ _ => ((), .ok [faceW])

/-- C1: for every landmark-bearing frame, the head-pose classifier
evaluates the fixed thresholds first-match-wins in the priority order
`yaw < -20` → looking_left, `yaw > 20` → looking_right, `pitch < -15`
→ looking_down, `pitch > 15` → looking_up, else focused, and the
violation flag is true exactly on the four non-focused branches; the
pipeline's direction and violation fields are exactly this chain
applied to the scaled RQ angles. -/
theorem claim1_threshold_chain :
    (∀ y x : ℚ,
      ((classifyPose y x).1 = "looking_left" ↔ y < -20) ∧
      ((classifyPose y x).1 = "looking_right" ↔ 20 < y) ∧
      ((classifyPose y x).1 = "looking_down" ↔ (-20 ≤ y ∧ y ≤ 20 ∧ x < -15)) ∧
      ((classifyPose y x).1 = "looking_up" ↔ (-20 ≤ y ∧ y ≤ 20 ∧ 15 < x)) ∧
      ((classifyPose y x).1 = "focused" ↔ (-20 ≤ y ∧ y ≤ 20 ∧ -15 ≤ x ∧ x ≤ 15)) ∧
      ((classifyPose y x).2 = true ↔ (classifyPose y x).1 ≠ "focused")) ∧
    (∀ (o : Oracles) (img fimg : Image) (f : Face) (fs : List Face)
      (s : Bool) (rv tv : Vec3) (rmat : Mat3) (a0 a1 a2 : ℚ),
      o.flip img = .ok fimg →
      o.detect fimg = .ok (f :: fs) →
      o.solvePnP (face_3d f fimg.width fimg.height) (face_2d f fimg.width fimg.height)
        (camMatrix fimg.height fimg.width) distMatrix = .ok (s, rv, tv) →
      o.rodrigues rv = .ok rmat →
      o.rqDecomp3x3 rmat = .ok (a0, a1, a2) →
      (analyze_gaze_with_head_pose o (.ok img)).direction =
        (classifyPose (a1 * 360) (a0 * 360)).1 ∧
      (analyze_gaze_with_head_pose o (.ok img)).violation =
        (classifyPose (a1 * 360) (a0 * 360)).2) := by
  constructor
  · intro y x
    unfold classifyPose YAW_THRESHOLD PITCH_THRESHOLD
    split_ifs with h1 h2 h3 h4
    · exact ⟨iff_of_true rfl h1,
        iff_of_false (by decide) (by intro h; linarith),
        iff_of_false (by decide) (by rintro ⟨hy, -, -⟩; linarith),
        iff_of_false (by decide) (by rintro ⟨hy, -, -⟩; linarith),
        iff_of_false (by decide) (by rintro ⟨hy, -, -, -⟩; linarith),
        iff_of_true rfl (by decide)⟩
    · exact ⟨iff_of_false (by decide) h1,
        iff_of_true rfl h2,
        iff_of_false (by decide) (by rintro ⟨-, hy, -⟩; linarith),
        iff_of_false (by decide) (by rintro ⟨-, hy, -⟩; linarith),
        iff_of_false (by decide) (by rintro ⟨-, hy, -, -⟩; linarith),
        iff_of_true rfl (by decide)⟩
    · exact ⟨iff_of_false (by decide) h1,
        iff_of_false (by decide) h2,
        iff_of_true rfl ⟨not_lt.mp h1, not_lt.mp h2, h3⟩,
        iff_of_false (by decide) (by rintro ⟨-, -, hx⟩; linarith),
        iff_of_false (by decide) (by rintro ⟨-, -, hx, -⟩; linarith),
        iff_of_true rfl (by decide)⟩
    · exact ⟨iff_of_false (by decide) h1,
        iff_of_false (by decide) h2,
        iff_of_false (by decide) (by rintro ⟨-, -, hx⟩; exact h3 hx),
        iff_of_true rfl ⟨not_lt.mp h1, not_lt.mp h2, h4⟩,
        iff_of_false (by decide) (by rintro ⟨-, -, -, hx⟩; linarith),
        iff_of_true rfl (by decide)⟩
    · exact ⟨iff_of_false (by decide) h1,
        iff_of_false (by decide) h2,
        iff_of_false (by decide) (by rintro ⟨-, -, hx⟩; exact h3 hx),
        iff_of_false (by decide) (by rintro ⟨-, -, hx⟩; exact h4 hx),
        iff_of_true rfl
          ⟨not_lt.mp h1, not_lt.mp h2, not_lt.mp h3, not_lt.mp h4⟩,
        iff_of_false (by decide) (fun h => h rfl)⟩
  · intro o img fimg f fs s rv tv rmat a0 a1 a2 hflip hdet hsol hrod hrq
    simp [analyze_gaze_with_head_pose, hflip, hdet, hsol, hrod, hrq]

/-- C1 witness: a concrete environment in which the solve chain
succeeds with RQ angles `(0, 1, 0)`. -/
theorem claim1_threshold_chain_witness :
    (analyze_gaze_with_head_pose oW (.ok imgW)).direction =
      (classifyPose (1 * 360) (0 * 360)).1 ∧
    (analyze_gaze_with_head_pose oW (.ok imgW)).violation =
      (classifyPose (1 * 360) (0 * 360)).2 :=
  claim1_threshold_chain.2 oW imgW imgW faceW [] true (0, 0, 0) (0, 0, 0)
    zeroMat 0 1 0 rfl rfl rfl rfl rfl

/-- C2: for every landmark set with the three consumed landmarks
present, `is_looking_away` returns true iff
`abs(nose.x - (left.x + right.x) / 2) > 0.016` where the left operand
comes from index 33, the right from index 263 and the nose from index
1; equality with 0.016 and a centred nose both yield false. -/
theorem claim2_ratio_threshold :
    ∀ (l : Face) (lft rgt nose : Point3),
      l.get? 33 = some lft → l.get? 263 = some rgt → l.get? 1 = some nose →
      ((is_looking_away l = .ok true ↔
          |nose.x - (lft.x + rgt.x) / 2| > 16 / 1000) ∧
       (|nose.x - (lft.x + rgt.x) / 2| = 16 / 1000 →
          is_looking_away l = .ok false) ∧
       (nose.x = (lft.x + rgt.x) / 2 → is_looking_away l = .ok false)) := by
  intro l lft rgt nose h33 h263 h1
  have e1 : LEFT_EYE.get! 0 = 33 := rfl
  have e2 : RIGHT_EYE.get! 1 = 263 := rfl
  have e3 : NOSE = 1 := rfl
  refine ⟨?_, ?_, ?_⟩
  · simp only [is_looking_away, e1, e2, e3, h33, h263, h1]
    simp [decide_eq_true_eq]
  · intro h
    have hnot : ¬(|nose.x - (lft.x + rgt.x) / 2| > 16 / 1000) := by
      rw [h]
      exact lt_irrefl _
    simp only [is_looking_away, e1, e2, e3, h33, h263, h1]
    simp [hnot]
  · intro h
    have hnot : ¬(|nose.x - (lft.x + rgt.x) / 2| > 16 / 1000) := by
      rw [h, sub_self, abs_zero]
      norm_num
    simp only [is_looking_away, e1, e2, e3, h33, h263, h1]
    simp [hnot]

/-- C2 witness: the all-origin face is not flagged (its nose sits on
the eye midline). -/
theorem claim2_ratio_threshold_witness : is_looking_away faceW = .ok false :=
  (claim2_ratio_threshold faceW ptZ ptZ ptZ rfl rfl rfl).2.2 (by simp [ptZ])

/-- The displaced-nose face is flagged by the ratio heuristic. -/
theorem faceV_flagged : is_looking_away faceV = .ok true := by
  have h33 : faceV.get? (LEFT_EYE.get! 0) = some ptZ := rfl
  have h263 : faceV.get? (RIGHT_EYE.get! 1) = some ptZ := rfl
  have h1 : faceV.get? NOSE = some ⟨1, 0, 0⟩ := rfl
  simp only [is_looking_away, h33, h263, h1]
  have : (16 / 1000 : ℚ) < |(1 : ℚ)| := by
    rw [abs_one]
    norm_num
  simp [ptZ]
  simpa [ptZ] using this

/-- Scaled RQ angles `(0, 1, 0)` classify as looking_right in
`analyze_gaze_with_head_pose`'s chain. -/
theorem classifyPose_360 : classifyPose 360 0 = ("looking_right", true) := by
  unfold classifyPose YAW_THRESHOLD PITCH_THRESHOLD
  norm_num

/-- Scaled RQ angles `(0, 1, 0)` classify as looking_right in
`process_frame_cv2`'s chain. -/
theorem classifyProc_360 :
    classifyProc 360 0 = ("looking_right", true, "Looking Right!") := by
  unfold classifyProc YAW_THRESHOLD PITCH_THRESHOLD
  norm_num

/-- The ratio path flags a violation in the concrete environment `oV`. -/
theorem analyze_oV_true : analyze_gaze oV (.ok imgW) = true := by
  simp [analyze_gaze, oV, faceV_flagged]

/-- The head-pose path flags a violation in the concrete environment `oW`. -/
theorem agwhp_oW_viol :
    (analyze_gaze_with_head_pose oW (.ok imgW)).violation = true := by
  simp [analyze_gaze_with_head_pose, oW, classifyPose_360]

/-- The monitoring path flags a violation in the concrete environment `oW`. -/
theorem proc_oW_viol : (process_frame_cv2 oW imgW).violation = true := by
  simp [process_frame_cv2, oW, classifyProc_360]

/-- C3: the three analysis functions are fail-open: a true violation
flag can only arise from a fully successful pipeline (decode, flip,
detect with at least one face, solve chain), so every failure —
decode failure, no face, solver failure, or any other caught
exception — yields a result with the violation flag false, and no
failure escapes to the caller. -/
theorem claim3_fail_open :
    (∀ (o : Oracles) (dec : DecodeResult), analyze_gaze o dec = true →
      ∃ (img : Image) (f : Face) (fs : List Face),
        dec = .ok img ∧ o.detect img = .ok (f :: fs) ∧
        is_looking_away f = .ok true) ∧
    (∀ (o : Oracles) (dec : DecodeResult),
      (analyze_gaze_with_head_pose o dec).violation = true →
      ∃ (img fimg : Image) (f : Face) (fs : List Face) (s : Bool)
        (rv tv : Vec3) (rmat : Mat3) (a0 a1 a2 : ℚ),
        dec = .ok img ∧ o.flip img = .ok fimg ∧
        o.detect fimg = .ok (f :: fs) ∧
        o.solvePnP (face_3d f fimg.width fimg.height)
          (face_2d f fimg.width fimg.height)
          (camMatrix fimg.height fimg.width) distMatrix = .ok (s, rv, tv) ∧
        o.rodrigues rv = .ok rmat ∧ o.rqDecomp3x3 rmat = .ok (a0, a1, a2) ∧
        (classifyPose (a1 * 360) (a0 * 360)).2 = true) ∧
    (∀ (o : Oracles) (img0 : Image),
      (process_frame_cv2 o img0).violation = true →
      ∃ (fimg : Image) (f : Face) (fs : List Face) (s : Bool)
        (rv tv : Vec3) (rmat : Mat3) (a0 a1 a2 : ℚ),
        o.flip img0 = .ok fimg ∧ o.detect fimg = .ok (f :: fs) ∧
        o.solvePnP (face_3d f fimg.width fimg.height)
          (face_2d f fimg.width fimg.height)
          (camMatrix fimg.height fimg.width) distMatrix = .ok (s, rv, tv) ∧
        o.rodrigues rv = .ok rmat ∧ o.rqDecomp3x3 rmat = .ok (a0, a1, a2) ∧
        (classifyProc (a1 * 360) (a0 * 360)).2.1 = true) := by
  refine ⟨?_, ?_, ?_⟩
  · intro o dec h
    cases dec with
    | raise msg => simp [analyze_gaze] at h
    | failed => simp [analyze_gaze] at h
    | ok img =>
      cases hdet : o.detect img with
      | error e => simp [analyze_gaze, hdet] at h
      | ok faces =>
        cases faces with
        | nil => simp [analyze_gaze, hdet] at h
        | cons f fs =>
          cases hila : is_looking_away f with
          | error e => simp [analyze_gaze, hdet, hila] at h
          | ok b =>
            simp only [analyze_gaze, hdet, hila] at h
            exact ⟨img, f, fs, rfl, hdet, h ▸ hila⟩
  · intro o dec h
    cases dec with
    | raise msg => simp [analyze_gaze_with_head_pose, poseError] at h
    | failed => simp [analyze_gaze_with_head_pose] at h
    | ok img =>
      cases hflip : o.flip img with
      | error e => simp [analyze_gaze_with_head_pose, hflip, poseError] at h
      | ok fimg =>
        cases hdet : o.detect fimg with
        | error e => simp [analyze_gaze_with_head_pose, hflip, hdet, poseError] at h
        | ok faces =>
          cases faces with
          | nil => simp [analyze_gaze_with_head_pose, hflip, hdet] at h
          | cons f fs =>
            cases hsol : o.solvePnP (face_3d f fimg.width fimg.height)
                (face_2d f fimg.width fimg.height)
                (camMatrix fimg.height fimg.width) distMatrix with
            | error e =>
              simp [analyze_gaze_with_head_pose, hflip, hdet, hsol, poseError] at h
            | ok triple =>
              obtain ⟨s, rv, tv⟩ := triple
              cases hrod : o.rodrigues rv with
              | error e =>
                simp [analyze_gaze_with_head_pose, hflip, hdet, hsol, hrod,
                  poseError] at h
              | ok rmat =>
                cases hrq : o.rqDecomp3x3 rmat with
                | error e =>
                  simp [analyze_gaze_with_head_pose, hflip, hdet, hsol, hrod,
                    hrq, poseError] at h
                | ok angles =>
                  obtain ⟨a0, a1, a2⟩ := angles
                  refine ⟨img, fimg, f, fs, s, rv, tv, rmat, a0, a1, a2,
                    ?_, ?_, ?_, ?_, ?_, ?_, ?_⟩ <;>
                  first
                  | rfl
                  | exact hflip
                  | exact hdet
                  | exact hsol
                  | exact hrod
                  | exact hrq
                  | simpa [analyze_gaze_with_head_pose, hflip, hdet, hsol,
                      hrod, hrq] using h
  · intro o img0 h
    cases hflip : o.flip img0 with
    | error e => simp [process_frame_cv2, hflip, procError] at h
    | ok fimg =>
      cases hdet : o.detect fimg with
      | error e => simp [process_frame_cv2, hflip, hdet, procError] at h
      | ok faces =>
        cases faces with
        | nil => simp [process_frame_cv2, hflip, hdet] at h
        | cons f fs =>
          cases hsol : o.solvePnP (face_3d f fimg.width fimg.height)
              (face_2d f fimg.width fimg.height)
              (camMatrix fimg.height fimg.width) distMatrix with
          | error e => simp [process_frame_cv2, hflip, hdet, hsol, procError] at h
          | ok triple =>
            obtain ⟨s, rv, tv⟩ := triple
            cases hrod : o.rodrigues rv with
            | error e =>
              simp [process_frame_cv2, hflip, hdet, hsol, hrod, procError] at h
            | ok rmat =>
              cases hrq : o.rqDecomp3x3 rmat with
              | error e =>
                simp [process_frame_cv2, hflip, hdet, hsol, hrod, hrq,
                  procError] at h
              | ok angles =>
                obtain ⟨a0, a1, a2⟩ := angles
                refine ⟨fimg, f, fs, s, rv, tv, rmat, a0, a1, a2,
                  ?_, ?_, ?_, ?_, ?_, ?_⟩ <;>
                first
                | rfl
                | exact hflip
                | exact hdet
                | exact hsol
                | exact hrod
                | exact hrq
                | simpa [process_frame_cv2, hflip, hdet, hsol, hrod, hrq] using h

/-- C3 witness: concrete violating runs of all three functions, from
which the success chains are recovered. -/
theorem claim3_fail_open_witness :
    (∃ (img : Image) (f : Face) (fs : List Face),
      (DecodeResult.ok imgW) = .ok img ∧ oV.detect img = .ok (f :: fs) ∧
      is_looking_away f = .ok true) ∧
    (∃ (img fimg : Image) (f : Face) (fs : List Face) (s : Bool)
      (rv tv : Vec3) (rmat : Mat3) (a0 a1 a2 : ℚ),
      (DecodeResult.ok imgW) = .ok img ∧ oW.flip img = .ok fimg ∧
      oW.detect fimg = .ok (f :: fs) ∧
      oW.solvePnP (face_3d f fimg.width fimg.height)
        (face_2d f fimg.width fimg.height)
        (camMatrix fimg.height fimg.width) distMatrix = .ok (s, rv, tv) ∧
      oW.rodrigues rv = .ok rmat ∧ oW.rqDecomp3x3 rmat = .ok (a0, a1, a2) ∧
      (classifyPose (a1 * 360) (a0 * 360)).2 = true) ∧
    (∃ (fimg : Image) (f : Face) (fs : List Face) (s : Bool)
      (rv tv : Vec3) (rmat : Mat3) (a0 a1 a2 : ℚ),
      oW.flip imgW = .ok fimg ∧ oW.detect fimg = .ok (f :: fs) ∧
      oW.solvePnP (face_3d f fimg.width fimg.height)
        (face_2d f fimg.width fimg.height)
        (camMatrix fimg.height fimg.width) distMatrix = .ok (s, rv, tv) ∧
      oW.rodrigues rv = .ok rmat ∧ oW.rqDecomp3x3 rmat = .ok (a0, a1, a2) ∧
      (classifyProc (a1 * 360) (a0 * 360)).2.1 = true) :=
  ⟨claim3_fail_open.1 oV (.ok imgW) analyze_oV_true,
   claim3_fail_open.2.1 oW (.ok imgW) agwhp_oW_viol,
   claim3_fail_open.2.2 oW imgW proc_oW_viol⟩

/-- C4: a frame in which the detector reports zero faces makes both
head-pose paths return violation false, direction "no_face", yaw 0 and
pitch 0 (the monitoring path also returns the un-annotated flipped
frame). -/
theorem claim4_no_face :
    (∀ (o : Oracles) (img fimg : Image),
      o.flip img = .ok fimg → o.detect fimg = .ok [] →
      analyze_gaze_with_head_pose o (.ok img) =
        { violation := false, direction := "no_face", yaw := some 0,
          pitch := some 0, err := none }) ∧
    (∀ (o : Oracles) (img0 fimg : Image),
      o.flip img0 = .ok fimg → o.detect fimg = .ok [] →
      process_frame_cv2 o img0 =
        { violation := false, direction := "no_face", image := fimg,
          yaw := some 0, pitch := some 0, err := none }) := by
  constructor
  · intro o img fimg hflip hdet
    simp [analyze_gaze_with_head_pose, hflip, hdet]
  · intro o img0 fimg hflip hdet
    simp [process_frame_cv2, hflip, hdet]

/-- C4 witness: a concrete no-face environment. -/
theorem claim4_no_face_witness :
    analyze_gaze_with_head_pose oN (.ok imgW) =
      { violation := false, direction := "no_face", yaw := some 0,
        pitch := some 0, err := none } ∧
    process_frame_cv2 oN imgW =
      { violation := false, direction := "no_face", image := imgW,
        yaw := some 0, pitch := some 0, err := none } :=
  ⟨claim4_no_face.1 oN imgW imgW rfl rfl,
   claim4_no_face.2 oN imgW imgW rfl rfl⟩

/-- C5 counterexample: on an empty or undecodable buffer (decode
returns no image), `analyze_gaze_with_head_pose` answers with
direction "unknown" — not "error" and not "no_face" as the claim
states — though the violation flag is indeed false. -/
theorem claim5_counterexample :
    (analyze_gaze_with_head_pose oW .failed).violation = false ∧
    (analyze_gaze_with_head_pose oW .failed).direction = "unknown" ∧
    (analyze_gaze_with_head_pose oW .failed).direction ≠ "error" ∧
    (analyze_gaze_with_head_pose oW .failed).direction ≠ "no_face" :=
  ⟨rfl, rfl, by decide, by decide⟩

/-- C5 amended: every empty or undecodable image buffer yields
violation false without raising; `analyze_gaze` returns the bare
non-violation value false, and `analyze_gaze_with_head_pose` reports
direction "unknown" when decoding yields no image and direction
"error" when decoding raises. -/
theorem claim5_amended :
    (∀ o : Oracles, analyze_gaze o .failed = false) ∧
    (∀ (o : Oracles) (msg : String), analyze_gaze o (.raise msg) = false) ∧
    (∀ o : Oracles,
      (analyze_gaze_with_head_pose o .failed).violation = false ∧
      (analyze_gaze_with_head_pose o .failed).direction = "unknown") ∧
    (∀ (o : Oracles) (msg : String),
      (analyze_gaze_with_head_pose o (.raise msg)).violation = false ∧
      (analyze_gaze_with_head_pose o (.raise msg)).direction = "error") :=
  ⟨fun _ => rfl, fun _ _ => rfl, fun _ => ⟨rfl, rfl⟩, fun _ _ => ⟨rfl, rfl⟩⟩

/-- Banker's rounding moves a rational by at most one half. -/
theorem roundHalfEven_close (x : ℚ) : |(roundHalfEven x : ℚ) - x| ≤ 1 / 2 := by
  unfold roundHalfEven
  split_ifs with h h2
  · rw [abs_sub_comm]
    rw [show x - ((⌊x⌋ : ℤ) : ℚ) = 1 / 2 from h]
    rw [abs_of_pos (by norm_num : (0 : ℚ) < 1 / 2)]
  · push_cast
    rw [show ((⌊x⌋ : ℚ) + 1) - x = 1 / 2 from by linarith]
    rw [abs_of_pos (by norm_num : (0 : ℚ) < 1 / 2)]
  · rw [abs_sub_comm]
    exact abs_sub_round x

/-- C6: the camera intrinsic matrix has focal length (the image width)
at entries (0,0) and (1,1), height/2 at (0,2), width/2 at (1,2), 1 at
(2,2) and 0 elsewhere, and both head-pose paths consult the solver
only at the matrix rebuilt from the current frame's dimensions: two
oracle sets that agree everywhere except on solver queries outside
that per-frame matrix produce identical results. -/
theorem claim6_cam_matrix :
    (∀ h w : ℕ,
      camMatrix h w 0 0 = (w : ℚ) ∧ camMatrix h w 0 1 = 0 ∧
      camMatrix h w 0 2 = (h : ℚ) / 2 ∧
      camMatrix h w 1 0 = 0 ∧ camMatrix h w 1 1 = (w : ℚ) ∧
      camMatrix h w 1 2 = (w : ℚ) / 2 ∧
      camMatrix h w 2 0 = 0 ∧ camMatrix h w 2 1 = 0 ∧
      camMatrix h w 2 2 = 1) ∧
    (∀ (o o' : Oracles) (img fimg : Image),
      o.flip img = .ok fimg →
      o'.flip = o.flip → o'.detect = o.detect →
      o'.rodrigues = o.rodrigues → o'.rqDecomp3x3 = o.rqDecomp3x3 →
      (∀ f3 f2,
        o'.solvePnP f3 f2 (camMatrix fimg.height fimg.width) distMatrix =
        o.solvePnP f3 f2 (camMatrix fimg.height fimg.width) distMatrix) →
      analyze_gaze_with_head_pose o' (.ok img) =
        analyze_gaze_with_head_pose o (.ok img)) ∧
    (∀ (o o' : Oracles) (img0 fimg : Image),
      o.flip img0 = .ok fimg →
      o'.flip = o.flip → o'.detect = o.detect →
      o'.rodrigues = o.rodrigues → o'.rqDecomp3x3 = o.rqDecomp3x3 →
      o'.putText = o.putText →
      (∀ f3 f2,
        o'.solvePnP f3 f2 (camMatrix fimg.height fimg.width) distMatrix =
        o.solvePnP f3 f2 (camMatrix fimg.height fimg.width) distMatrix) →
      process_frame_cv2 o' img0 = process_frame_cv2 o img0) := by
  refine ⟨?_, ?_, ?_⟩
  · refine fun h w => ⟨?_, ?_, ?_, ?_, ?_, ?_, ?_, ?_, ?_⟩ <;>
      first
      | rfl
      | simp [camMatrix]
  · intro o o' img fimg hflip hf hd hr hq hs
    cases hdet : o.detect fimg with
    | error e =>
      simp [analyze_gaze_with_head_pose, hf, hd, hr, hq, hflip, hdet]
    | ok faces =>
      cases faces with
      | nil => simp [analyze_gaze_with_head_pose, hf, hd, hflip, hdet]
      | cons f fs =>
        simp only [analyze_gaze_with_head_pose, hf, hd, hr, hq, hflip, hdet, hs]
  · intro o o' img0 fimg hflip hf hd hr hq hp hs
    cases hdet : o.detect fimg with
    | error e =>
      simp [process_frame_cv2, hf, hd, hr, hq, hp, hflip, hdet]
    | ok faces =>
      cases faces with
      | nil => simp [process_frame_cv2, hf, hd, hflip, hdet]
      | cons f fs =>
        simp only [process_frame_cv2, hf, hd, hr, hq, hp, hflip, hdet, hs]

/-- C6 witness: concrete matrix entry at a 480x640 frame, and a solver
that answers differently away from the per-frame matrix leaves both
pipelines unchanged. -/
theorem claim6_cam_matrix_witness :
    camMatrix 480 640 1 2 = (640 : ℚ) / 2 ∧
    analyze_gaze_with_head_pose oAlt (.ok imgW) =
      analyze_gaze_with_head_pose oW (.ok imgW) ∧
    process_frame_cv2 oAlt imgW = process_frame_cv2 oW imgW :=
  ⟨((claim6_cam_matrix.1 480 640).2.2.2.2.2.1 : _),
   claim6_cam_matrix.2.1 oW oAlt imgW imgW rfl rfl rfl rfl rfl
     (fun f3 f2 => by simp [oAlt, oW, camMatrix, imgW]),
   claim6_cam_matrix.2.2 oW oAlt imgW imgW rfl rfl rfl rfl rfl rfl
     (fun f3 f2 => by simp [oAlt, oW, camMatrix, imgW])⟩

/-- C7: for every successfully solved pose, the reported yaw is the
second RQ angle times 360 and the reported pitch is the first RQ angle
times 360, each rounded to two decimal places (the rounded value is an
integer number of hundredths within half a hundredth of the exact
scaled angle). -/
theorem claim7_angles :
    (∀ (o : Oracles) (img fimg : Image) (f : Face) (fs : List Face)
      (s : Bool) (rv tv : Vec3) (rmat : Mat3) (a0 a1 a2 : ℚ),
      o.flip img = .ok fimg → o.detect fimg = .ok (f :: fs) →
      o.solvePnP (face_3d f fimg.width fimg.height)
        (face_2d f fimg.width fimg.height)
        (camMatrix fimg.height fimg.width) distMatrix = .ok (s, rv, tv) →
      o.rodrigues rv = .ok rmat → o.rqDecomp3x3 rmat = .ok (a0, a1, a2) →
      (analyze_gaze_with_head_pose o (.ok img)).yaw =
        some (pyRound2 (a1 * 360)) ∧
      (analyze_gaze_with_head_pose o (.ok img)).pitch =
        some (pyRound2 (a0 * 360))) ∧
    (∀ q : ℚ, ∃ n : ℤ, pyRound2 q = n / 100) ∧
    (∀ q : ℚ, |pyRound2 q - q| ≤ 1 / 200) := by
  refine ⟨?_, ?_, ?_⟩
  · intro o img fimg f fs s rv tv rmat a0 a1 a2 hflip hdet hsol hrod hrq
    simp [analyze_gaze_with_head_pose, hflip, hdet, hsol, hrod, hrq]
  · intro q
    exact ⟨roundHalfEven (q * 100), rfl⟩
  · intro q
    have h2 := roundHalfEven_close (q * 100)
    have e : pyRound2 q - q = ((roundHalfEven (q * 100) : ℚ) - q * 100) / 100 := by
      unfold pyRound2
      ring
    rw [e]
    calc |((roundHalfEven (q * 100) : ℚ) - q * 100) / 100|
        = |(roundHalfEven (q * 100) : ℚ) - q * 100| / 100 := by
          rw [abs_div]
          norm_num
      _ ≤ (1 / 2) / 100 := by gcongr
      _ = 1 / 200 := by norm_num

/-- C7 witness: a concrete solved pose with RQ angles `(0, 1, 0)`. -/
theorem claim7_angles_witness :
    (analyze_gaze_with_head_pose oW (.ok imgW)).yaw =
      some (pyRound2 (1 * 360)) ∧
    (analyze_gaze_with_head_pose oW (.ok imgW)).pitch =
      some (pyRound2 (0 * 360)) :=
  claim7_angles.1 oW imgW imgW faceW [] true (0, 0, 0) (0, 0, 0)
    zeroMat 0 1 0 rfl rfl rfl rfl rfl

/-- C8 counterexample: the shared FaceMesh is created with
`static_image_mode=False`, so its tracking state persists between
calls; with a detector whose answer depends on that state, two
consecutive calls of the classifier on the same static frame return
different results. -/
theorem claim8_counterexample :
    face_mesh_config.static_image_mode = false ∧
    (twoCalls d0 0 oW imgW).1 ≠ (twoCalls d0 0 oW imgW).2 := by
  refine ⟨rfl, ?_⟩
  have h1 : (twoCalls d0 0 oW imgW).1.direction = "looking_right" := by
    simp [twoCalls, analyze_gaze_with_head_pose, d0, oW, stateAfter,
      classifyPose_360]
  have h2 : (twoCalls d0 0 oW imgW).2.direction = "no_face" := by
    simp [twoCalls, analyze_gaze_with_head_pose, d0, oW, stateAfter]
  intro he
  rw [he, h2] at h1
  exact absurd h1 (by decide)

/-- C8 amended: two calls of the classifier on the same static frame
yield identical results whenever the detector's answer is unchanged by
the state advance of the first call — everything downstream of
detection is deterministic and stateless.  Unconditional idempotence
is not guaranteed because the detector is constructed in tracking mode
(`static_image_mode=False`). -/
theorem claim8_amended :
    ∀ (σ : Type) (d : σ → Image → σ × Except String (List Face)) (s : σ)
      (o : Oracles) (img : Image),
      (∀ i : Image, (d (stateAfter d s o img) i).2 = (d s i).2) →
      (twoCalls d s o img).1 = (twoCalls d s o img).2 := by
  intro σ d s o img hdet
  have he : (fun i => (d (stateAfter d s o img) i).2) = fun i => (d s i).2 :=
    funext hdet
  simp only [twoCalls]
  rw [he]

/-- C8 witness: a stateless detector gives identical results on both
calls. -/
theorem claim8_amended_witness :
    (twoCalls dS () oW imgW).1 = (twoCalls dS () oW imgW).2 :=
  claim8_amended Unit dS () oW imgW (fun _ => rfl)

/-- Setting index `i` leaves lookups at other positions unchanged. -/
theorem get?_set_other {α : Type} (l : List α) (i j : ℕ) (a : α) (h : i ≠ j) :
    (l.set i a).get? j = l.get? j := by
  induction l generalizing i j with
  | nil => simp
  | cons b t ih =>
    cases i with
    | zero =>
      cases j with
      | zero => exact absurd rfl h
      | succ j' => simp
    | succ i' =>
      cases j with
      | zero => simp
      | succ j' =>
        simp only [List.set, List.get?_cons_succ]
        exact ih i' j' (fun he => h (by rw [he]))

/-- Setting an in-range index is observable at that position. -/
theorem get?_set_self {α : Type} (l : List α) (i : ℕ) (a : α)
    (h : i < l.length) : (l.set i a).get? i = some a := by
  induction l generalizing i with
  | nil => simp at h
  | cons b t ih =>
    cases i with
    | zero => rfl
    | succ i' =>
      simp only [List.set, List.get?_cons_succ]
      exact ih i' (by simpa using h)

/-- A face with no selectable landmark from position `n` on collects
nothing. -/
theorem collectPose_nil (l : Face) :
    ∀ n : ℕ, (∀ k : ℕ, (n + k) ∈ poseIdx → l.get? k = none) →
      collectPose n l = [] := by
  induction l with
  | nil => intro n _; rfl
  | cons b t ih =>
    intro n h
    have hn : n ∉ poseIdx := by
      intro hmem
      have h0 := h 0 (by simpa using hmem)
      simp at h0
    simp only [collectPose, if_neg hn]
    apply ih
    intro k hk
    have hk' : n + (k + 1) ∈ poseIdx := by
      rw [show n + (k + 1) = n + 1 + k from by omega]
      exact hk
    simpa using h (k + 1) hk'

/-- The collected pairs are a function of the lookups at the selected
indices alone. -/
theorem collectPose_congr (l : Face) :
    ∀ (l' : Face) (n : ℕ),
      (∀ k : ℕ, (n + k) ∈ poseIdx → l.get? k = l'.get? k) →
      collectPose n l = collectPose n l' := by
  induction l with
  | nil =>
    intro l' n h
    refine (collectPose_nil l' n ?_).symm
    intro k hk
    have := (h k hk).symm
    simpa using this
  | cons a t ih =>
    intro l' n h
    cases l' with
    | nil =>
      apply collectPose_nil
      intro k hk
      simpa using h k hk
    | cons b t' =>
      have hrest : ∀ k : ℕ, (n + 1 + k) ∈ poseIdx → t.get? k = t'.get? k := by
        intro k hk
        have hk' : n + (k + 1) ∈ poseIdx := by
          rw [show n + (k + 1) = n + 1 + k from by omega]
          exact hk
        simpa using h (k + 1) hk'
      by_cases hn : n ∈ poseIdx
      · have h0 := h 0 (by simpa using hn)
        simp only [List.get?] at h0
        have hab : a = b := by
          injection h0
        simp only [collectPose, if_pos hn, hab]
        exact congrArg _ (ih t' (n + 1) hrest)
      · simp only [collectPose, if_neg hn]
        exact ih t' (n + 1) hrest

/-- Selection is a function of the six consumed landmark lookups. -/
theorem poseSelect_congr (l l' : Face)
    (h : ∀ i ∈ poseIdx, l.get? i = l'.get? i) :
    poseSelect l = poseSelect l' := by
  apply collectPose_congr
  intro k hk
  exact h k (by simpa using hk)

/-- Every collected pair comes from a lookup in the face. -/
theorem collectPose_mem (l : Face) :
    ∀ (n : ℕ) (p : ℕ × Point3), p ∈ collectPose n l →
      ∃ k : ℕ, p.1 = n + k ∧ l.get? k = some p.2 := by
  induction l with
  | nil => intro n p hp; simp [collectPose] at hp
  | cons b t ih =>
    intro n p hp
    by_cases hn : n ∈ poseIdx
    · simp only [collectPose, if_pos hn, List.mem_cons] at hp
      cases hp with
      | inl he => exact ⟨0, by simp [he], by simp [he]⟩
      | inr hm =>
        obtain ⟨k, hk1, hk2⟩ := ih (n + 1) p hm
        exact ⟨k + 1, by omega, by simpa using hk2⟩
    · simp only [collectPose, if_neg hn] at hp
      obtain ⟨k, hk1, hk2⟩ := ih (n + 1) p hp
      exact ⟨k + 1, by omega, by simpa using hk2⟩

/-- A selectable in-range landmark is collected. -/
theorem collectPose_of_get? (l : Face) :
    ∀ (n k : ℕ) (a : Point3), (n + k) ∈ poseIdx → l.get? k = some a →
      (n + k, a) ∈ collectPose n l := by
  induction l with
  | nil => intro n k a _ hg; simp at hg
  | cons b t ih =>
    intro n k a hmem hg
    cases k with
    | zero =>
      simp only [List.get?] at hg
      injection hg with hg
      simp only [Nat.add_zero] at hmem ⊢
      simp [collectPose, if_pos hmem, hg]
    | succ k' =>
      have hg' : t.get? k' = some a := by simpa using hg
      have hmem' : (n + 1) + k' ∈ poseIdx := by
        rw [show n + 1 + k' = n + (k' + 1) from by omega]
        exact hmem
      have hm := ih (n + 1) k' a hmem' hg'
      rw [show n + (k' + 1) = n + 1 + k' from by omega]
      by_cases hn : n ∈ poseIdx
      · simp only [collectPose, if_pos hn]
        exact List.mem_cons_of_mem _ hm
      · simpa [collectPose, if_neg hn] using hm

/-- The ratio heuristic depends only on landmark indices 33, 263, 1. -/
theorem ratio_core : ratioDependsOnlyOn [33, 263, 1] := by
  intro l l' hag
  have e1 : LEFT_EYE.get! 0 = 33 := rfl
  have e2 : RIGHT_EYE.get! 1 = 263 := rfl
  have e3 : NOSE = 1 := rfl
  simp only [is_looking_away, e1, e2, e3]
  rw [hag 33 (by simp), hag 263 (by simp), hag 1 (by simp)]

/-- The pose path's solver inputs depend only on the six consumed
indices. -/
theorem pose_core : poseDependsOnlyOn poseIdx := by
  intro w h l l' hag
  have hsel := poseSelect_congr l l' hag
  constructor <;> simp [face_2d, face_3d, hsel]

/-- The all-origin face is not flagged by the ratio heuristic. -/
theorem faceW_not_flagged : is_looking_away faceW = .ok false := by
  have h33 : faceW.get? (LEFT_EYE.get! 0) = some ptZ := rfl
  have h263 : faceW.get? (RIGHT_EYE.get! 1) = some ptZ := rfl
  have h1 : faceW.get? NOSE = some ptZ := rfl
  simp only [is_looking_away, h33, h263, h1]
  simp [ptZ]
  norm_num

/-- Displacing only the left-eye corner flags the ratio heuristic. -/
theorem face33_flagged : is_looking_away face33 = .ok true := by
  have h33 : face33.get? (LEFT_EYE.get! 0) = some ⟨1, 0, 0⟩ := rfl
  have h263 : face33.get? (RIGHT_EYE.get! 1) = some ptZ := rfl
  have h1 : face33.get? NOSE = some ptZ := rfl
  simp only [is_looking_away, h33, h263, h1]
  have hlt : (16 / 1000 : ℚ) < |(0 : ℚ) - (1 + 0) / 2| := by
    rw [show (0 : ℚ) - (1 + 0) / 2 = -(1 / 2) from by norm_num, abs_neg,
      abs_of_pos (by norm_num : (0 : ℚ) < 1 / 2)]
    norm_num
  simp [ptZ]
  simpa [ptZ] using hlt

/-- Displacing only the right-eye corner flags the ratio heuristic. -/
theorem face263_flagged : is_looking_away face263 = .ok true := by
  have h33 : face263.get? (LEFT_EYE.get! 0) = some ptZ := rfl
  have h263 : face263.get? (RIGHT_EYE.get! 1) = some ⟨1, 0, 0⟩ := rfl
  have h1 : face263.get? NOSE = some ptZ := rfl
  simp only [is_looking_away, h33, h263, h1]
  have hlt : (16 / 1000 : ℚ) < |(0 : ℚ) - (0 + 1) / 2| := by
    rw [show (0 : ℚ) - (0 + 1) / 2 = -(1 / 2) from by norm_num, abs_neg,
      abs_of_pos (by norm_num : (0 : ℚ) < 1 / 2)]
    norm_num
  simp [ptZ]
  simpa [ptZ] using hlt

/-- Every index the pose path consumes influences its solver inputs. -/
theorem pose_influence (i : ℕ) (hi : i ∈ poseIdx) : poseInfluencedBy i := by
  refine ⟨0, 0, List.replicate (i + 1) ptZ,
    (List.replicate (i + 1) ptZ).set i ptD, ?_, ?_⟩
  · intro j hj
    exact (get?_set_other _ i j ptD (fun he => hj (he.symm))).symm
  · intro heq
    have hget : ((List.replicate (i + 1) ptZ).set i ptD).get? i = some ptD :=
      get?_set_self _ i ptD (by simp)
    have hzero : (0 : ℕ) + i = i := by omega
    have hmemSel : (i, ptD) ∈ poseSelect ((List.replicate (i + 1) ptZ).set i ptD) := by
      have := collectPose_of_get? ((List.replicate (i + 1) ptZ).set i ptD)
        0 i ptD (by simpa [hzero] using hi) hget
      simpa [poseSelect, hzero] using this
    have hzs : ∀ f : Face, ((face_3d f 0 0).map fun t => t.2.2) =
        (poseSelect f).map fun p => p.2.z := by
      intro f
      unfold face_3d
      rw [List.map_map]
      rfl
    have hzmem : ptD.z ∈ (face_3d ((List.replicate (i + 1) ptZ).set i ptD) 0 0).map
        fun t => t.2.2 := by
      rw [hzs]
      exact List.mem_map_of_mem _ hmemSel
    rw [← heq, hzs] at hzmem
    obtain ⟨q, hqmem, hqz⟩ := List.mem_map.mp hzmem
    obtain ⟨k, -, hk⟩ := collectPose_mem _ 0 q hqmem
    have hq : q.2 = ptZ := List.eq_of_mem_replicate (List.get?_mem hk)
    rw [hq] at hqz
    exact absurd hqz (by norm_num [ptZ, ptD])

/-- C9 counterexample: the ratio path does not read the index set
{33, 133, 362, 263, 1} claimed: `is_looking_away` consumes only
`LEFT_EYE[0] = 33`, `RIGHT_EYE[1] = 263` and `NOSE = 1`, so index 133
(and likewise 362) can never influence its verdict. -/
theorem claim9_counterexample : ¬ ratioReadsExactly [33, 133, 362, 263, 1] := by
  rintro ⟨hdep, hinf⟩
  obtain ⟨l, l', hag, hne⟩ := hinf 133 (by simp)
  apply hne
  apply ratio_core l l'
  intro i hi
  apply hag
  rcases (by simpa using hi : i = 33 ∨ i = 263 ∨ i = 1) with rfl | rfl | rfl <;>
    decide

/-- C9 amended: the ratio path reads exactly the landmark indices
{33, 263, 1} (the arrays LEFT_EYE = [33, 133] and RIGHT_EYE =
[362, 263] are declared, but only LEFT_EYE[0] and RIGHT_EYE[1] are
consumed), and the pose path reads exactly {33, 263, 1, 61, 291, 199};
no other landmark index influences either classifier. -/
theorem claim9_amended :
    ratioReadsExactly [33, 263, 1] ∧ poseReadsExactly poseIdx := by
  refine ⟨⟨ratio_core, ?_⟩, pose_core, fun i hi => pose_influence i hi⟩
  intro i hi
  rcases (by simpa using hi : i = 33 ∨ i = 263 ∨ i = 1) with rfl | rfl | rfl
  · refine ⟨faceW, face33, ?_, ?_⟩
    · intro j hj
      exact (get?_set_other _ 33 j _ (fun he => hj he.symm)).symm
    · rw [faceW_not_flagged, face33_flagged]
      simp
  · refine ⟨faceW, face263, ?_, ?_⟩
    · intro j hj
      exact (get?_set_other _ 263 j _ (fun he => hj he.symm)).symm
    · rw [faceW_not_flagged, face263_flagged]
      simp
  · refine ⟨faceW, faceV, ?_, ?_⟩
    · intro j hj
      exact (get?_set_other _ 1 j _ (fun he => hj he.symm)).symm
    · rw [faceW_not_flagged, faceV_flagged]
      simp

/-- The two duplicated threshold chains agree on direction and
violation. -/
theorem classifyProc_proj (y x : ℚ) :
    (classifyProc y x).1 = (classifyPose y x).1 ∧
    (classifyProc y x).2.1 = (classifyPose y x).2 := by
  unfold classifyProc classifyPose
  split_ifs <;> exact ⟨rfl, rfl⟩

/-- C10: when the two head-pose paths see frames of equal (flipped)
dimensions on which the detector answers identically, they return
equal violation, direction, yaw and pitch fields; only the annotated
image differs. -/
theorem claim10_paths_agree :
    ∀ (o : Oracles) (imgA img0 fimgA fimg0 : Image),
      o.flip imgA = .ok fimgA → o.flip img0 = .ok fimg0 →
      fimgA.height = fimg0.height → fimgA.width = fimg0.width →
      o.detect fimgA = o.detect fimg0 →
      (analyze_gaze_with_head_pose o (.ok imgA)).violation =
        (process_frame_cv2 o img0).violation ∧
      (analyze_gaze_with_head_pose o (.ok imgA)).direction =
        (process_frame_cv2 o img0).direction ∧
      (analyze_gaze_with_head_pose o (.ok imgA)).yaw =
        (process_frame_cv2 o img0).yaw ∧
      (analyze_gaze_with_head_pose o (.ok imgA)).pitch =
        (process_frame_cv2 o img0).pitch := by
  intro o imgA img0 fimgA fimg0 hfA hf0 hh hw hdet
  cases hd : o.detect fimg0 with
  | error e =>
    simp [analyze_gaze_with_head_pose, process_frame_cv2, hfA, hf0, hdet, hd,
      poseError, procError]
  | ok faces =>
    cases faces with
    | nil =>
      simp [analyze_gaze_with_head_pose, process_frame_cv2, hfA, hf0, hdet, hd]
    | cons f fs =>
      simp only [analyze_gaze_with_head_pose, process_frame_cv2, hfA, hf0,
        hdet, hd, hh, hw]
      cases hsol : o.solvePnP (face_3d f fimg0.width fimg0.height)
          (face_2d f fimg0.width fimg0.height)
          (camMatrix fimg0.height fimg0.width) distMatrix with
      | error e => simp [hsol, poseError, procError]
      | ok triple =>
        obtain ⟨s, rv, tv⟩ := triple
        cases hrod : o.rodrigues rv with
        | error e => simp [hsol, hrod, poseError, procError]
        | ok rmat =>
          cases hrq : o.rqDecomp3x3 rmat with
          | error e => simp [hsol, hrod, hrq, poseError, procError]
          | ok angles =>
            obtain ⟨a0, a1, a2⟩ := angles
            refine ⟨?_, ?_, ?_, ?_⟩ <;>
              simp only [hsol, hrod, hrq] <;>
              first
              | rfl
              | exact (classifyProc_proj _ _).2.symm
              | exact (classifyProc_proj _ _).1.symm

/-- C10 witness: a concrete environment exercised through both paths. -/
theorem claim10_paths_agree_witness :
    (analyze_gaze_with_head_pose oW (.ok imgW)).violation =
      (process_frame_cv2 oW imgW).violation ∧
    (analyze_gaze_with_head_pose oW (.ok imgW)).direction =
      (process_frame_cv2 oW imgW).direction ∧
    (analyze_gaze_with_head_pose oW (.ok imgW)).yaw =
      (process_frame_cv2 oW imgW).yaw ∧
    (analyze_gaze_with_head_pose oW (.ok imgW)).pitch =
      (process_frame_cv2 oW imgW).pitch :=
  claim10_paths_agree oW imgW imgW imgW imgW rfl rfl rfl rfl rfl

end Proctoring
